import Mathlib

/-!
Shallow embedding of the real-time relay and spatial-alerting pipeline of
`src/source/backend/main.py` (Tactical Dashboard backend), together with
theorems settling the frozen claims about it.

Conventions of the embedding:
* Python floats are modelled as real numbers (`ℝ`).
* Python dict lookups `d["k"]` that may raise `KeyError`, and `None` values
  flowing into arithmetic (raising `TypeError`), are modelled with `Option`
  fields plus an explicit error component `Option PyErr` in results.
* Wall-clock timestamps (`datetime.now()`) and random UUIDs are omitted from
  the records: they are environment inputs that no claim depends on; the
  alert store is modelled as an append-ordered list.
* `math.atan2 y x` is modelled as `Complex.arg ⟨x, y⟩`, which agrees with the
  two-argument arctangent on all of ℝ × ℝ (both return an angle in (-π, π],
  and both return 0 at the origin).
-/

/- ==================== Distance Evaluator (`calculate_distance`) ==================== -/

/-- `math.radians`: degrees to radians. -/
noncomputable def radians (x : ℝ) : ℝ := x * Real.pi / 180

/-- `math.atan2 y x`, the two-argument arctangent, as the argument of the
complex number `x + y*I`. -/
noncomputable def atan2 (y x : ℝ) : ℝ := Complex.arg ⟨x, y⟩

/-- The intermediate value `a` of `calculate_distance` (main.py line 549):
`sin(delta_lat / 2) ** 2 + cos(lat1_rad) * cos(lat2_rad) * sin(delta_lon / 2) ** 2`. -/
noncomputable def haversine_a (lat1 lon1 lat2 lon2 : ℝ) : ℝ :=
  Real.sin (radians (lat2 - lat1) / 2) ^ 2 +
    Real.cos (radians lat1) * Real.cos (radians lat2) *
      Real.sin (radians (lon2 - lon1) / 2) ^ 2

/-- `calculate_distance` (main.py lines 538-552): haversine great-circle
distance in meters, with Earth radius `R = 6371000` and
`c = 2 * atan2(sqrt(a), sqrt(1 - a))`; returns `R * c`. -/
noncomputable def calculate_distance (lat1 lon1 lat2 lon2 : ℝ) : ℝ :=
  6371000 * (2 * atan2 (Real.sqrt (haversine_a lat1 lon1 lat2 lon2))
    (Real.sqrt (1 - haversine_a lat1 lon1 lat2 lon2)))

lemma haversine_a_comm (lat1 lon1 lat2 lon2 : ℝ) :
    haversine_a lat1 lon1 lat2 lon2 = haversine_a lat2 lon2 lat1 lon1 := by
  unfold haversine_a
  have h1 : radians (lat1 - lat2) = -(radians (lat2 - lat1)) := by unfold radians; ring
  have h2 : radians (lon1 - lon2) = -(radians (lon2 - lon1)) := by unfold radians; ring
  rw [h1, h2, neg_div, neg_div, Real.sin_neg, Real.sin_neg, neg_sq, neg_sq]
  ring

lemma calculate_distance_comm (lat1 lon1 lat2 lon2 : ℝ) :
    calculate_distance lat1 lon1 lat2 lon2 = calculate_distance lat2 lon2 lat1 lon1 := by
  unfold calculate_distance
  rw [haversine_a_comm]

lemma haversine_a_self (lat lon : ℝ) : haversine_a lat lon lat lon = 0 := by
  unfold haversine_a radians
  simp

lemma atan2_zero_one : atan2 0 1 = 0 := by
  unfold atan2
  have h : (⟨1, 0⟩ : ℂ) = 1 := Complex.ext rfl rfl
  rw [h, Complex.arg_one]

lemma calculate_distance_self (lat lon : ℝ) : calculate_distance lat lon lat lon = 0 := by
  unfold calculate_distance
  rw [haversine_a_self]
  norm_num [atan2_zero_one]

lemma atan2_nonneg (y x : ℝ) (hy : 0 ≤ y) : 0 ≤ atan2 y x := by
  unfold atan2
  exact Complex.arg_nonneg_iff.mpr hy

lemma calculate_distance_nonneg (lat1 lon1 lat2 lon2 : ℝ) :
    0 ≤ calculate_distance lat1 lon1 lat2 lon2 := by
  unfold calculate_distance
  have h := atan2_nonneg (Real.sqrt (haversine_a lat1 lon1 lat2 lon2))
    (Real.sqrt (1 - haversine_a lat1 lon1 lat2 lon2))
    (Real.sqrt_nonneg _)
  positivity

/-- `C5`: `calculate_distance` is symmetric in its two coordinate pairs,
returns exactly 0 on identical coordinates (hence "approximately 0"),
is nonnegative, and is literally the haversine formula with spherical Earth
radius 6,371,000 meters (`R * 2 * atan2(sqrt a, sqrt (1-a))`); as a pure
Lean function it is deterministic and side-effect free. -/
theorem C5_distance_algebra (lat1 lon1 lat2 lon2 : ℝ) :
    calculate_distance lat1 lon1 lat2 lon2 = calculate_distance lat2 lon2 lat1 lon1 ∧
    calculate_distance lat1 lon1 lat1 lon1 = 0 ∧
    0 ≤ calculate_distance lat1 lon1 lat2 lon2 ∧
    calculate_distance lat1 lon1 lat2 lon2 =
      6371000 * (2 * atan2 (Real.sqrt (haversine_a lat1 lon1 lat2 lon2))
        (Real.sqrt (1 - haversine_a lat1 lon1 lat2 lon2))) :=
  ⟨calculate_distance_comm lat1 lon1 lat2 lon2,
   calculate_distance_self lat1 lon1,
   calculate_distance_nonneg lat1 lon1 lat2 lon2,
   rfl⟩

/- ==================== Data model ==================== -/

/-- Python exceptions that can escape the modelled code paths:
`KeyError` from `location["lat"]` / `location["lon"]`, `TypeError` from
passing a `None` zone coordinate into `math.radians`, and
`json.JSONDecodeError` from `json.loads`. -/
inductive PyErr
  | keyError
  | typeError
  | jsonError
deriving DecidableEq

/-- The `location_data` dict of a relay message. `location["lat"]` raises
`KeyError` when the key is absent, hence `Option` fields. -/
structure LocationDict where
  lat : Option ℝ
  lon : Option ℝ

/-- One entry of `Offender.geofence_zones` (a plain dict in the source, read
with `zone.get(...)`, so every field may be absent). -/
structure ZoneDict where
  name : Option String
  lat : Option ℝ
  lon : Option ℝ
  radius : Option ℝ
  type : Option String

/-- `POI` model (main.py lines 102-112); only the fields the alert engine
reads are kept. -/
structure POI where
  id : String
  name : String
  lat : ℝ
  lon : ℝ
  radius : ℝ
  is_active : Bool

/-- `Offender` model (main.py lines 84-100); only the fields the relay and
alert paths read or write are kept. -/
structure Offender where
  id : String
  name : String
  device_id : Option String
  current_location : Option LocationDict
  geofence_zones : List ZoneDict

/-- `Alert` model (main.py lines 114-121). The random UUID `id` and the
`datetime.now()` timestamp are omitted (environment inputs); creation sets
`acknowledged := false`. -/
structure Alert where
  offender_id : String
  alert_type : String
  severity : String
  message : String
  acknowledged : Bool

/-- Python `int(x)` on a float: truncation toward zero. -/
noncomputable def pyInt (x : ℝ) : ℤ := if 0 ≤ x then ⌊x⌋ else ⌈x⌉

/-- The alert constructed at main.py lines 496-501 for a POI proximity hit. -/
noncomputable def mkPoiAlert (o : Offender) (d : ℝ) (p : POI) : Alert :=
  { offender_id := o.id
    alert_type := "poi_proximity"
    severity := "high"
    message := "Offender " ++ o.name ++ " is within " ++ toString (pyInt d)
      ++ "m of POI: " ++ p.name
    acknowledged := false }

/-- The alert constructed at main.py lines 524-528 for a geofence violation. -/
def mkGeoAlert (o : Offender) (z : ZoneDict) : Alert :=
  { offender_id := o.id
    alert_type := "geofence_violation"
    severity := "high"
    message := "Offender " ++ o.name ++ " entered restricted zone: "
      ++ z.name.getD "Unknown"
    acknowledged := false }

/- ==================== Spatial Alert Engine ==================== -/

/-- `check_poi_proximity` (main.py lines 483-508), iterating `pois_db.values()`
in stored order. Returns the list of alerts created (in creation order, each
is also appended to `alerts_db` and broadcast) and the exception, if any, that
escaped: an inactive POI is skipped by `continue` before the location lookup;
an active POI first evaluates `location["lat"]`, `location["lon"]` (KeyError
when absent), then the distance, then the strict `<` comparison. -/
noncomputable def check_poi_proximity (pois : List POI) (offender : Offender)
    (location : LocationDict) : List Alert × Option PyErr :=
  match pois with
  | [] => ([], none)
  | poi :: rest =>
    if poi.is_active = true then
      match location.lat, location.lon with
      | some la, some lo' =>
        if calculate_distance la lo' poi.lat poi.lon < poi.radius then
          let r := check_poi_proximity rest offender location
          (mkPoiAlert offender (calculate_distance la lo' poi.lat poi.lon) poi :: r.1, r.2)
        else
          check_poi_proximity rest offender location
      | _, _ => ([], some PyErr.keyError)
    else
      check_poi_proximity rest offender location

/-- The per-POI emission decision of `check_poi_proximity`, given the sample
coordinates `la`, `lo'`. -/
noncomputable def poiEmit (o : Offender) (la lo' : ℝ) (p : POI) : Option Alert :=
  if p.is_active = true ∧ calculate_distance la lo' p.lat p.lon < p.radius then
    some (mkPoiAlert o (calculate_distance la lo' p.lat p.lon) p)
  else none

lemma check_poi_eq (pois : List POI) (o : Offender) (loc : LocationDict)
    (la lo' : ℝ) (hlat : loc.lat = some la) (hlon : loc.lon = some lo') :
    check_poi_proximity pois o loc = (pois.filterMap (poiEmit o la lo'), none) := by
  induction pois with
  | nil => rfl
  | cons p rest ih =>
    by_cases hact : p.is_active = true
    · by_cases hd : calculate_distance la lo' p.lat p.lon < p.radius
      · simp [check_poi_proximity, hlat, hlon, hact, hd, ih, poiEmit]
      · simp [check_poi_proximity, hlat, hlon, hact, hd, ih, poiEmit]
    · simp [check_poi_proximity, hlat, hlon, hact, ih, poiEmit]

/-- `C1`: with both sample coordinates present, `check_poi_proximity` raises
nothing and emits, per POI in stored order, exactly the alerts selected by
`poiEmit`; a POI's alert is emitted iff the POI is active and the distance is
strictly below its radius; an inactive POI never triggers; a radius-0 POI
never triggers; a sample at exactly the radius does not trigger; every emitted
alert has severity "high", kind "poi_proximity", and a message containing the
integer-truncated distance and the POI name. -/
theorem C1_poi_proximity_spec (pois : List POI) (o : Offender) (loc : LocationDict)
    (la lo' : ℝ) (hlat : loc.lat = some la) (hlon : loc.lon = some lo') :
    check_poi_proximity pois o loc = (pois.filterMap (poiEmit o la lo'), none) ∧
    (∀ p : POI, (poiEmit o la lo' p).isSome ↔
      (p.is_active = true ∧ calculate_distance la lo' p.lat p.lon < p.radius)) ∧
    (∀ p : POI, p.is_active = false → poiEmit o la lo' p = none) ∧
    (∀ p : POI, p.radius = 0 → poiEmit o la lo' p = none) ∧
    (∀ p : POI, calculate_distance la lo' p.lat p.lon = p.radius →
      poiEmit o la lo' p = none) ∧
    (∀ p a, poiEmit o la lo' p = some a →
      a.severity = "high" ∧ a.alert_type = "poi_proximity" ∧
      a.message = "Offender " ++ o.name ++ " is within "
        ++ toString (pyInt (calculate_distance la lo' p.lat p.lon))
        ++ "m of POI: " ++ p.name) := by
  refine ⟨check_poi_eq pois o loc la lo' hlat hlon, ?_, ?_, ?_, ?_, ?_⟩
  · intro p
    by_cases h : p.is_active = true ∧ calculate_distance la lo' p.lat p.lon < p.radius
    · simp [poiEmit, h]
    · simp [poiEmit, h]
  · intro p hp
    simp [poiEmit, hp]
  · intro p hp
    apply if_neg
    rintro ⟨-, hlt⟩
    rw [hp] at hlt
    exact absurd hlt (not_lt.mpr (calculate_distance_nonneg la lo' p.lat p.lon))
  · intro p hp
    apply if_neg
    rintro ⟨-, hlt⟩
    rw [hp] at hlt
    exact lt_irrefl _ hlt
  · intro p a hpa
    unfold poiEmit at hpa
    split at hpa
    · cases hpa
      exact ⟨rfl, rfl, rfl⟩
    · cases hpa

/-- Fixtures used by witnesses: a sample at the origin and a minimal subject. -/
def testLoc : LocationDict := { lat := some 0, lon := some 0 }

def testOffenderA : Offender :=
  { id := "o1", name := "A", device_id := some "d1"
    current_location := none, geofence_zones := [] }

/-- Witness for `C1`: the hypotheses hold at the concrete fixture and the
theorem applies there. -/
theorem C1_poi_proximity_spec_witness :
    testLoc.lat = some 0 ∧ testLoc.lon = some 0 ∧
    check_poi_proximity [] testOffenderA testLoc = ([], none) :=
  ⟨rfl, rfl, (C1_poi_proximity_spec [] testOffenderA testLoc 0 0 rfl rfl).1⟩

/-- The zone loop of `check_geofence_violations` (main.py lines 512-536), over
an explicit zone list. Per zone: `zone.get("lat")` / `zone.get("lon")` /
`zone.get("radius", 100)` / `zone.get("type", "exclusion")` never raise; then
`calculate_distance(location["lat"], location["lon"], zone_lat, zone_lon)`
raises `KeyError` if a sample coordinate is absent (argument evaluation,
before the call) and `TypeError` if a zone coordinate is `None` (inside
`math.radians`); then the guard `zone_type == "exclusion" and distance <
zone_radius` decides emission. -/
noncomputable def check_geofence_zones (o : Offender) (loc : LocationDict) :
    List ZoneDict → List Alert × Option PyErr
  | [] => ([], none)
  | z :: rest =>
    match loc.lat, loc.lon with
    | some la, some lo' =>
      match z.lat, z.lon with
      | some zla, some zlo =>
        if z.type.getD "exclusion" = "exclusion" ∧
            calculate_distance la lo' zla zlo < z.radius.getD 100 then
          let r := check_geofence_zones o loc rest
          (mkGeoAlert o z :: r.1, r.2)
        else
          check_geofence_zones o loc rest
      | _, _ => ([], some PyErr.typeError)
    | _, _ => ([], some PyErr.keyError)

/-- `check_geofence_violations` (main.py lines 510-536): the zone loop applied
to the subject's own `geofence_zones`, in stored order. -/
noncomputable def check_geofence_violations (o : Offender) (loc : LocationDict) :
    List Alert × Option PyErr :=
  check_geofence_zones o loc o.geofence_zones

/-- The per-zone emission decision of `check_geofence_violations`, given the
sample coordinates `la`, `lo'`. -/
noncomputable def geoEmit (o : Offender) (la lo' : ℝ) (z : ZoneDict) : Option Alert :=
  match z.lat, z.lon with
  | some zla, some zlo =>
    if z.type.getD "exclusion" = "exclusion" ∧
        calculate_distance la lo' zla zlo < z.radius.getD 100 then
      some (mkGeoAlert o z)
    else none
  | _, _ => none

lemma check_geo_eq (o : Offender) (loc : LocationDict) (la lo' : ℝ)
    (zs : List ZoneDict) (hlat : loc.lat = some la) (hlon : loc.lon = some lo')
    (hall : ∀ z ∈ zs, z.lat ≠ none ∧ z.lon ≠ none) :
    check_geofence_zones o loc zs = (zs.filterMap (geoEmit o la lo'), none) := by
  induction zs with
  | nil => rfl
  | cons z rest ih =>
    obtain ⟨zla, hzla⟩ := Option.ne_none_iff_exists'.mp (hall z (by simp)).1
    obtain ⟨zlo, hzlo⟩ := Option.ne_none_iff_exists'.mp (hall z (by simp)).2
    have ih' := ih (fun w hw => hall w (by simp [hw]))
    by_cases hc : z.type.getD "exclusion" = "exclusion" ∧
        calculate_distance la lo' zla zlo < z.radius.getD 100
    · simp [check_geofence_zones, hlat, hlon, hzla, hzlo, hc, ih', geoEmit]
    · simp [check_geofence_zones, hlat, hlon, hzla, hzlo, hc, ih', geoEmit]

/-- `C2`: with both sample coordinates present and every zone's center
present, `check_geofence_violations` raises nothing and emits, per zone in
stored order, exactly the alerts selected by `geoEmit`; for a zone of kind
"exclusion" with radius `r`, an alert is emitted iff the distance is strictly
below `r`; distance `r - 1` triggers and distance `r + 1` does not; every
emitted alert has severity "high", kind "geofence_violation", and a message
naming the zone. -/
theorem C2_geofence_spec (o : Offender) (loc : LocationDict) (la lo' : ℝ)
    (hlat : loc.lat = some la) (hlon : loc.lon = some lo')
    (hall : ∀ z ∈ o.geofence_zones, z.lat ≠ none ∧ z.lon ≠ none) :
    check_geofence_violations o loc =
      (o.geofence_zones.filterMap (geoEmit o la lo'), none) ∧
    (∀ (z : ZoneDict) (zla zlo r : ℝ), z.lat = some zla → z.lon = some zlo →
      z.type = some "exclusion" → z.radius = some r →
      ((geoEmit o la lo' z).isSome ↔ calculate_distance la lo' zla zlo < r) ∧
      (calculate_distance la lo' zla zlo = r - 1 → (geoEmit o la lo' z).isSome) ∧
      (calculate_distance la lo' zla zlo = r + 1 → geoEmit o la lo' z = none) ∧
      (∀ a, geoEmit o la lo' z = some a → a.severity = "high" ∧
        a.alert_type = "geofence_violation" ∧
        a.message = "Offender " ++ o.name ++ " entered restricted zone: "
          ++ z.name.getD "Unknown")) := by
  refine ⟨check_geo_eq o loc la lo' o.geofence_zones hlat hlon hall, ?_⟩
  intro z zla zlo r h1 h2 h3 h4
  refine ⟨?_, ?_, ?_, ?_⟩
  · by_cases hd : calculate_distance la lo' zla zlo < r
    · simp [geoEmit, h1, h2, h3, h4, hd]
    · simp [geoEmit, h1, h2, h3, h4, hd]
  · intro heq
    have hd : calculate_distance la lo' zla zlo < r := by rw [heq]; linarith
    simp [geoEmit, h1, h2, h3, h4, hd]
  · intro heq
    have hd : ¬ calculate_distance la lo' zla zlo < r := by rw [heq]; linarith
    simp [geoEmit, h1, h2, h3, h4, hd]
  · intro a ha
    unfold geoEmit at ha
    simp only [h1, h2] at ha
    split at ha
    · cases ha
      exact ⟨rfl, rfl, rfl⟩
    · cases ha

/-- Witness for `C2`: the hypotheses hold at the concrete fixture and the
theorem applies there. -/
theorem C2_geofence_spec_witness :
    testLoc.lat = some 0 ∧ testOffenderA.geofence_zones = [] ∧
    check_geofence_violations testOffenderA testLoc = ([], none) :=
  ⟨rfl, rfl,
    (C2_geofence_spec testOffenderA testLoc 0 0 rfl rfl (by simp [testOffenderA])).1⟩

/-- `C10`: a zone dict with only a center — `radius` and `type` keys absent —
is evaluated with `zone.get("radius", 100) = 100` and
`zone.get("type", "exclusion") = "exclusion"`, so it emits a
`geofence_violation` alert exactly when the sample is strictly within 100
meters of its center. -/
theorem C10_zone_defaults_spec (o : Offender) (loc : LocationDict)
    (la lo' zla zlo : ℝ) (z : ZoneDict)
    (hlat : loc.lat = some la) (hlon : loc.lon = some lo')
    (hzla : z.lat = some zla) (hzlo : z.lon = some zlo)
    (hr : z.radius = none) (ht : z.type = none)
    (hz : o.geofence_zones = [z]) :
    ((geoEmit o la lo' z).isSome ↔ calculate_distance la lo' zla zlo < 100) ∧
    (calculate_distance la lo' zla zlo < 100 →
      check_geofence_violations o loc = ([mkGeoAlert o z], none)) := by
  constructor
  · by_cases hd : calculate_distance la lo' zla zlo < 100
    · simp [geoEmit, hzla, hzlo, hr, ht, hd]
    · simp [geoEmit, hzla, hzlo, hr, ht, hd]
  · intro hd
    have hall : ∀ w ∈ o.geofence_zones, w.lat ≠ none ∧ w.lon ≠ none := by
      rw [hz]
      intro w hw
      rw [List.mem_singleton] at hw
      subst hw
      simp [hzla, hzlo]
    rw [check_geofence_violations, hz] at *
    rw [check_geo_eq o loc la lo' [z] hlat hlon (by rw [hz] at hall; exact hall)]
    simp [geoEmit, hzla, hzlo, hr, ht, hd]

/-- A zone dict carrying only a center, used by the `C10` witness. -/
def testZoneCenter : ZoneDict :=
  { name := none, lat := some 0, lon := some 0, radius := none, type := none }

/-- A subject owning exactly the center-only zone, used by the `C10` witness. -/
def testOffenderB : Offender :=
  { id := "o2", name := "B", device_id := some "d1"
    current_location := none, geofence_zones := [testZoneCenter] }

/-- Witness for `C10`: at a sample placed exactly on the center-only zone's
center (distance 0 < 100), the defaulted zone does trigger an alert. -/
theorem C10_zone_defaults_spec_witness :
    testZoneCenter.radius = none ∧ testZoneCenter.type = none ∧
    check_geofence_violations testOffenderB testLoc =
      ([mkGeoAlert testOffenderB testZoneCenter], none) :=
  ⟨rfl, rfl,
    (C10_zone_defaults_spec testOffenderB testLoc 0 0 0 0 testZoneCenter
      rfl rfl rfl rfl rfl rfl rfl).2
      (by rw [calculate_distance_self]; norm_num)⟩

/- ==================== Combined spatial evaluation ==================== -/

/-- The spatial-alert step of the relay listener (main.py lines 461-465):
`check_poi_proximity` then `check_geofence_violations`, run against the alert
store `db`; both functions append every alert they create to the store, and
an exception from the first skips the second. Returns the resulting store and
the escaped exception, if any. -/
noncomputable def evaluate_spatial (pois : List POI) (o : Offender) (loc : LocationDict)
    (db : List Alert) : List Alert × Option PyErr :=
  let rp := check_poi_proximity pois o loc
  match rp.2 with
  | some e => (db ++ rp.1, some e)
  | none =>
    let rg := check_geofence_violations o loc
    (db ++ rp.1 ++ rg.1, rg.2)

/-- All alerts one evaluation emits for subject `o` at sample `(la, lo')`:
POI alerts first, then zone alerts, each collection in stored order. -/
noncomputable def spatialEmit (pois : List POI) (o : Offender) (la lo' : ℝ) : List Alert :=
  pois.filterMap (poiEmit o la lo') ++ o.geofence_zones.filterMap (geoEmit o la lo')

lemma evaluate_spatial_eq (pois : List POI) (o : Offender) (loc : LocationDict)
    (la lo' : ℝ) (hlat : loc.lat = some la) (hlon : loc.lon = some lo')
    (hall : ∀ z ∈ o.geofence_zones, z.lat ≠ none ∧ z.lon ≠ none)
    (db : List Alert) :
    evaluate_spatial pois o loc db = (db ++ spatialEmit pois o la lo', none) := by
  unfold evaluate_spatial
  rw [check_poi_eq pois o loc la lo' hlat hlon]
  simp only [check_geofence_violations]
  rw [check_geo_eq o loc la lo' o.geofence_zones hlat hlon hall]
  simp [spatialEmit]

/-- `C4`: the spatial evaluation deduplicates nothing. With the configuration
unchanged, the first invocation returns the prior store with the emission list
appended, and a second invocation appends the same emission list again —
previously stored alerts are carried through untouched at the front — so any
configuration that emits at least one alert yields at least two new alerts
over two invocations, and exactly twice the single-invocation count. -/
theorem C4_no_deduplication (pois : List POI) (o : Offender) (loc : LocationDict)
    (la lo' : ℝ) (db : List Alert)
    (hlat : loc.lat = some la) (hlon : loc.lon = some lo')
    (hall : ∀ z ∈ o.geofence_zones, z.lat ≠ none ∧ z.lon ≠ none) :
    evaluate_spatial pois o loc db = (db ++ spatialEmit pois o la lo', none) ∧
    evaluate_spatial pois o loc (db ++ spatialEmit pois o la lo') =
      (db ++ spatialEmit pois o la lo' ++ spatialEmit pois o la lo', none) ∧
    (db ++ spatialEmit pois o la lo' ++ spatialEmit pois o la lo').length =
      db.length + 2 * (spatialEmit pois o la lo').length ∧
    (spatialEmit pois o la lo' ≠ [] →
      db.length + 2 ≤
        (db ++ spatialEmit pois o la lo' ++ spatialEmit pois o la lo').length) := by
  refine ⟨evaluate_spatial_eq pois o loc la lo' hlat hlon hall db,
    evaluate_spatial_eq pois o loc la lo' hlat hlon hall _, ?_, ?_⟩
  · simp [List.length_append]
    omega
  · intro hne
    have hpos : 0 < (spatialEmit pois o la lo').length := List.length_pos.mpr hne
    simp [List.length_append]
    omega

/-- A POI centered at the origin with radius 100, used by witnesses. -/
def testPoi : POI :=
  { id := "p1", name := "School", lat := 0, lon := 0, radius := 100, is_active := true }

lemma spatialEmit_testPoi :
    spatialEmit [testPoi] testOffenderA 0 0 =
      [mkPoiAlert testOffenderA (calculate_distance 0 0 0 0) testPoi] := by
  have hd : calculate_distance 0 0 0 0 < 100 := by
    rw [calculate_distance_self]
    norm_num
  simp [spatialEmit, poiEmit, testOffenderA, testPoi, hd]

/-- Witness for `C4`: a subject sitting exactly on an active POI's center;
each of two successive evaluations emits a fresh alert, two alerts total. -/
theorem C4_no_deduplication_witness :
    testLoc.lat = some 0 ∧
    (evaluate_spatial [testPoi] testOffenderA testLoc
      ((evaluate_spatial [testPoi] testOffenderA testLoc []).1)).1.length = 2 := by
  have h := C4_no_deduplication [testPoi] testOffenderA testLoc 0 0 []
    rfl rfl (by simp [testOffenderA])
  refine ⟨rfl, ?_⟩
  rw [h.1]
  show (evaluate_spatial [testPoi] testOffenderA testLoc
    ([] ++ spatialEmit [testPoi] testOffenderA 0 0)).1.length = 2
  rw [h.2.1]
  simp [spatialEmit_testPoi]

/- ==================== C8: samples missing a coordinate ==================== -/

lemma check_poi_missing (pois : List POI) (o : Offender) (loc : LocationDict)
    (h : loc.lat = none ∨ loc.lon = none) :
    check_poi_proximity pois o loc =
      ([], if pois.all (fun p => !p.is_active) then none else some PyErr.keyError) := by
  induction pois with
  | nil => rfl
  | cons p rest ih =>
    by_cases hact : p.is_active = true
    · rcases h with h | h
      · simp [check_poi_proximity, h, hact]
      · cases hlat : loc.lat <;>
          simp [check_poi_proximity, h, hlat, hact]
    · have hact' : p.is_active = false := by
        cases hb : p.is_active
        · rfl
        · exact absurd hb hact
      simp [check_poi_proximity, hact, hact', ih]

lemma check_geo_missing (o : Offender) (loc : LocationDict) (zs : List ZoneDict)
    (h : loc.lat = none ∨ loc.lon = none) :
    check_geofence_zones o loc zs =
      ([], if zs.isEmpty then none else some PyErr.keyError) := by
  cases zs with
  | nil => rfl
  | cons z rest =>
    rcases h with h | h
    · simp [check_geofence_zones, h]
    · cases hlat : loc.lat <;> simp [check_geofence_zones, h, hlat]

/-- `C8` counterexample: a location payload carrying `lat` but no `lon`, fed
to the evaluation with one active POI configured, is not dropped cleanly: the
evaluation raises `KeyError` (at `location["lon"]`), contrary to the claim
that such samples are dropped without raising an error. -/
def testLocNoLon : LocationDict := { lat := some 0, lon := none }

theorem C8_counterexample :
    evaluate_spatial [testPoi] testOffenderA testLocNoLon [] =
      ([], some PyErr.keyError) := rfl

/-- `C8` amended: a sample missing either coordinate never produces an alert
(the store is returned unchanged), but it is dropped silently only when no
active POI and no geofence zone is configured; otherwise the evaluation
raises (`KeyError` on the sample lookup) instead of dropping the sample. -/
theorem C8_missing_coordinate_behavior (pois : List POI) (o : Offender)
    (loc : LocationDict) (db : List Alert) (h : loc.lat = none ∨ loc.lon = none) :
    (evaluate_spatial pois o loc db).1 = db ∧
    ((evaluate_spatial pois o loc db).2 = none ↔
      (∀ p ∈ pois, p.is_active = false) ∧ o.geofence_zones = []) := by
  have hp := check_poi_missing pois o loc h
  have hg := check_geo_missing o loc o.geofence_zones h
  cases hb : pois.all (fun p => !p.is_active) with
  | false =>
    rw [hb] at hp
    simp only [Bool.false_eq_true, if_false] at hp
    obtain ⟨p, hpmem, hpact⟩ := List.all_eq_false.mp hb
    constructor
    · simp [evaluate_spatial, hp]
    · simp only [evaluate_spatial, hp]
      constructor
      · intro hcon
        cases hcon
      · rintro ⟨h1, -⟩
        have := h1 p hpmem
        simp [this] at hpact
  | true =>
    rw [hb] at hp
    simp only [if_true] at hp
    have hall : ∀ p ∈ pois, p.is_active = false := by
      intro p hpmem
      have := List.all_eq_true.mp hb p hpmem
      simpa using this
    cases hzs : o.geofence_zones with
    | nil =>
      rw [hzs] at hg
      simp only [List.isEmpty_nil, if_true] at hg
      constructor
      · simp [evaluate_spatial, hp, check_geofence_violations, hzs, hg]
      · simp [evaluate_spatial, hp, check_geofence_violations, hzs, hg]
        exact hall
    | cons z rest =>
      rw [hzs] at hg
      simp only [List.isEmpty_cons, if_false] at hg
      constructor
      · simp [evaluate_spatial, hp, check_geofence_violations, hzs, hg]
      · simp only [evaluate_spatial, hp, check_geofence_violations, hzs, hg]
        constructor
        · intro hcon
          cases hcon
        · rintro ⟨-, h2⟩
          exact absurd h2 (List.cons_ne_nil z rest)

/-- A location payload with both coordinates absent, used by the `C8` witness. -/
def testLocEmpty : LocationDict := { lat := none, lon := none }

/-- Witness for `C8` (amended): with nothing configured, the degenerate sample
leaves the store unchanged. -/
theorem C8_missing_coordinate_behavior_witness :
    (testLocEmpty.lat = none ∨ testLocEmpty.lon = none) ∧
    (evaluate_spatial [] testOffenderA testLocEmpty []).1 = [] :=
  ⟨Or.inl rfl,
    (C8_missing_coordinate_behavior [] testOffenderA testLocEmpty [] (Or.inl rfl)).1⟩

/- ==================== Connection Registry (`ConnectionManager`) ==================== -/

/-- Outcome of one `connection.send_json(message)` attempt: it either
completes or raises (closed/broken transport). -/
inductive SendOutcome
  | ok
  | failed
deriving DecidableEq

/-- A dashboard WebSocket connection, abstracted to the transport's response
to each send attempt. -/
structure DashConn (Msg : Type) where
  onSend : Msg → SendOutcome

/-- `ConnectionManager` (main.py lines 155-181): the dashboard connection map
`active_connections` (insertion-ordered, as a Python dict) and the external
relay connection map `external_ws_connections` (only its keys matter to the
claims). -/
structure ConnMgr (Msg : Type) where
  active_connections : List (String × DashConn Msg)
  external_ws_connections : List String

/-- The loop body of `broadcast` (main.py lines 172-176): for each connection
in iteration order, `try: await connection.send_json(message) except: pass` —
a raising send is swallowed and the loop continues with the next connection.
Returns the outcome of every attempt. -/
def broadcastLoop {Msg : Type} : List (String × DashConn Msg) → Msg → List SendOutcome
  | [], _ => []
  | c :: rest, message => c.2.onSend message :: broadcastLoop rest message

/-- `ConnectionManager.broadcast` (main.py lines 170-176): runs the swallow
loop over `active_connections.values()`; never mutates either registration
map and never lets a send failure escape. -/
def broadcast {Msg : Type} (m : ConnMgr Msg) (message : Msg) :
    ConnMgr Msg × List SendOutcome :=
  (m, broadcastLoop m.active_connections message)

/-- `ConnectionManager.disconnect` (main.py lines 164-168): drop the client's
dashboard registration and its external registration, if present. -/
def ConnMgr.disconnect {Msg : Type} (m : ConnMgr Msg) (client_id : String) :
    ConnMgr Msg :=
  { active_connections := m.active_connections.filter (fun kc => kc.1 != client_id)
    external_ws_connections := m.external_ws_connections.filter (fun k => k != client_id) }

lemma broadcastLoop_eq_map {Msg : Type} (conns : List (String × DashConn Msg))
    (message : Msg) :
    broadcastLoop conns message = conns.map (fun c => c.2.onSend message) := by
  induction conns with
  | nil => rfl
  | cons c rest ih => simp [broadcastLoop, ih]

/-- `C3`: `broadcast` attempts delivery to every registered dashboard
connection — the outcome list has one entry per registration, and the `i`-th
entry is exactly the `i`-th connection's own send outcome, regardless of the
outcomes of the others (a failed send is swallowed per-recipient and the loop
continues); it is a total function, so no failure reaches the caller; it
returns the manager unchanged, so no registration is pruned; with zero
registered clients it is a no-op. -/
theorem C3_broadcast_spec {Msg : Type} (m : ConnMgr Msg) (message : Msg) :
    (broadcast m message).1 = m ∧
    (broadcast m message).2.length = m.active_connections.length ∧
    (∀ i : ℕ, (broadcast m message).2[i]? =
      (m.active_connections[i]?).map (fun c => c.2.onSend message)) ∧
    (m.active_connections = [] → broadcast m message = (m, [])) := by
  refine ⟨rfl, ?_, ?_, ?_⟩
  · simp [broadcast, broadcastLoop_eq_map]
  · intro i
    simp [broadcast, broadcastLoop_eq_map]
  · intro h
    simp [broadcast, h, broadcastLoop]

/-- A connection whose transport accepts every send, over `Nat` messages. -/
def testConnOk : DashConn Nat := { onSend := fun _ => SendOutcome.ok }

/-- A connection whose transport rejects every send. -/
def testConnBad : DashConn Nat := { onSend := fun _ => SendOutcome.failed }

/-- A manager with one broken and one healthy connection. -/
def testMgr : ConnMgr Nat :=
  { active_connections := [("a", testConnBad), ("b", testConnOk)]
    external_ws_connections := [] }

/-- A manager with no registered clients. -/
def emptyMgr : ConnMgr Nat :=
  { active_connections := [], external_ws_connections := [] }

/-- Witness for `C3`: the zero-client no-op at a concrete empty manager, and
registration preservation at a concrete manager with a broken connection. -/
theorem C3_broadcast_spec_witness :
    emptyMgr.active_connections = [] ∧
    broadcast emptyMgr 0 = (emptyMgr, []) ∧
    (broadcast testMgr 0).1 = testMgr :=
  ⟨rfl, (C3_broadcast_spec emptyMgr 0).2.2.2 rfl, (C3_broadcast_spec testMgr 0).1⟩

/- ==================== Relay Listener (`listen_to_external_ws`) ==================== -/

/-- `DeviceStatus` (main.py lines 58-62). -/
inductive DeviceStatus
  | online
  | offline
  | tampered
  | low_battery
deriving DecidableEq

/-- `Device` model (main.py lines 73-82); only the fields the relay listener
touches are kept (`last_update` is a wall-clock timestamp, omitted). -/
structure MDevice where
  status : DeviceStatus
  last_location : Option LocationDict

/-- An event handed to `manager.broadcast` by the listener: an "alert"
message (main.py lines 505-508 / 533-536) or a "location_update" message
(main.py lines 467-473, carrying the device id, location and user payload;
the timestamp is omitted). -/
inductive BEvent
  | alertEv (a : Alert)
  | locationEv (device_id : String) (loc : LocationDict) (user : Option String)

/-- The slice of global state a relay listener reads and writes: `devices_db`
(insertion-ordered), `offenders_db.values()` in iteration order, the POI
collection, `alerts_db` as an append-ordered list, the sequence of messages
handed to `manager.broadcast`, and the key set of
`manager.external_ws_connections`. -/
structure RelayState where
  devices : List (String × MDevice)
  offenders : List Offender
  pois : List POI
  alerts : List Alert
  broadcasts : List BEvent
  external_conns : List String

/-- One inbound frame of the external relay stream, as the listener sees it:
a frame `json.loads` rejects; a parsed frame whose `type` is not "location"
(ignored by the `if` at main.py line 445); or a "location" frame whose
extracted `location_data` is either falsy (`None`, absent, or empty — the
guard at main.py line 449 skips it) or a truthy dict. -/
inductive Frame
  | malformed
  | nonLocation
  | location (loc : Option LocationDict) (user : Option String)

/-- How the external stream ends: the `websockets` iterator exits normally on
a close with code 1000/1001 (graceful), and raises `ConnectionClosed` on any
other close (error). -/
inductive Closure
  | graceful
  | errorClosed

/-- Main.py lines 450-454: if `device_id` is registered, overwrite its last
location and mark it online. -/
def updateDevice (did : String) (loc : LocationDict)
    (ds : List (String × MDevice)) : List (String × MDevice) :=
  ds.map fun kv =>
    if kv.1 = did then (kv.1, { status := DeviceStatus.online, last_location := some loc })
    else kv

/-- The offender loop of main.py lines 456-465: for EVERY offender whose
`device_id` equals the frame's device id (the loop has no `break`), set
`current_location`, then run the POI check, then the geofence check; an
exception from a check aborts the loop at that offender (earlier offenders
stay updated, later ones are not visited). Returns the updated offender list,
the alerts created (in creation order), and the escaped exception, if any. -/
noncomputable def processOffenders (pois : List POI) (did : String) (loc : LocationDict) :
    List Offender → List Offender × List Alert × Option PyErr
  | [] => ([], [], none)
  | o :: rest =>
    if o.device_id = some did then
      let o' := { o with current_location := some loc }
      let rp := check_poi_proximity pois o' loc
      match rp.2 with
      | some e => (o' :: rest, rp.1, some e)
      | none =>
        let rg := check_geofence_violations o' loc
        match rg.2 with
        | some e => (o' :: rest, rp.1 ++ rg.1, some e)
        | none =>
          let rr := processOffenders pois did loc rest
          (o' :: rr.1, rp.1 ++ rg.1 ++ rr.2.1, rr.2.2)
    else
      let rr := processOffenders pois did loc rest
      (o :: rr.1, rr.2.1, rr.2.2)

/-- One iteration of the listener's `async for` body (main.py lines 442-473):
a malformed frame raises out of `json.loads`; a non-"location" frame and a
falsy `location_data` do nothing; otherwise the device entry is updated, the
offender loop runs (every created alert is appended to the store and
broadcast), and — only when no exception escaped — the "location_update"
event is broadcast. -/
noncomputable def processFrame (did : String) (st : RelayState) :
    Frame → RelayState × Option PyErr
  | Frame.malformed => (st, some PyErr.jsonError)
  | Frame.nonLocation => (st, none)
  | Frame.location none _ => (st, none)
  | Frame.location (some loc) user =>
    let devices' := updateDevice did loc st.devices
    let r := processOffenders st.pois did loc st.offenders
    let st' : RelayState :=
      { st with
        devices := devices'
        offenders := r.1
        alerts := st.alerts ++ r.2.1
        broadcasts := st.broadcasts ++ r.2.1.map BEvent.alertEv }
    match r.2.2 with
    | some e => (st', some e)
    | none =>
      ({ st' with broadcasts := st'.broadcasts ++ [BEvent.locationEv did loc user] }, none)

/-- The `except websockets.exceptions.ConnectionClosed` handler (main.py
lines 475-479): mark the device offline if registered. -/
def setOffline (did : String) (st : RelayState) : RelayState :=
  { st with
    devices := st.devices.map fun kv =>
      if kv.1 = did then (kv.1, { kv.2 with status := DeviceStatus.offline }) else kv }

/-- `listen_to_external_ws` (main.py lines 439-481) over a finite stream:
frames are consumed in order; the first frame whose processing raises ends
the function through the generic `except Exception` handler (main.py lines
480-481), which only logs — the device status is untouched and nothing is
deregistered; when the stream is exhausted, a graceful closure ends the
`async for` normally (no handler runs) and an error closure runs the
`ConnectionClosed` handler (device marked offline). No path removes the
device's entry from `external_ws_connections`. -/
noncomputable def runListener (did : String) (st : RelayState) :
    List Frame → Closure → RelayState
  | [], Closure.graceful => st
  | [], Closure.errorClosed => setOffline did st
  | f :: rest, cl =>
    let r := processFrame did st f
    match r.2 with
    | none => runListener did r.1 rest cl
    | some _ => r.1

/- ==================== C6: malformed frames ==================== -/

/-- A listener state with nothing registered, used by counterexamples. -/
def stEmpty : RelayState :=
  { devices := [], offenders := [], pois := [], alerts := []
    broadcasts := [], external_conns := ["d1"] }

/-- A well-formed location payload, used by counterexamples. -/
def goodLoc : LocationDict := { lat := some 1, lon := some 2 }

/-- `C6` counterexample: on the concrete stream [malformed frame, well-formed
location frame], the listener stops at the malformed frame — the state is
returned untouched, so the subsequent well-formed frame is never processed
and no `location_update` is broadcast; processing the well-formed frame alone
does broadcast it. This refutes the claim that a parse failure does not
terminate the consume loop. -/
theorem C6_counterexample :
    runListener "d1" stEmpty
      [Frame.malformed, Frame.location (some goodLoc) none] Closure.graceful = stEmpty ∧
    runListener "d1" stEmpty
      [Frame.location (some goodLoc) none] Closure.graceful =
      { stEmpty with broadcasts := [BEvent.locationEv "d1" goodLoc none] } :=
  ⟨rfl, rfl⟩

/-- `C6` amended: a frame that fails JSON parsing raises out of `json.loads`,
is caught only by the listener's outer generic handler, and terminates the
consume loop with the state exactly as it was — whatever frames follow it on
the stream are never processed, and neither closure handler runs. -/
theorem C6_malformed_terminates (did : String) (st : RelayState)
    (rest : List Frame) (cl : Closure) :
    runListener did st (Frame.malformed :: rest) cl = st := rfl

/- ==================== C7: stream closure ==================== -/

lemma processFrame_external_conns (did : String) (st : RelayState) (f : Frame) :
    ((processFrame did st f).1).external_conns = st.external_conns := by
  cases f with
  | malformed => rfl
  | nonLocation => rfl
  | location loc? user =>
    cases loc? with
    | none => rfl
    | some loc =>
      simp only [processFrame]
      cases h : (processOffenders st.pois did loc st.offenders).2.2 <;> simp [h]

lemma setOffline_external_conns (did : String) (st : RelayState) :
    (setOffline did st).external_conns = st.external_conns := rfl

lemma runListener_external_conns (did : String) (st : RelayState)
    (frames : List Frame) (cl : Closure) :
    (runListener did st frames cl).external_conns = st.external_conns := by
  induction frames generalizing st with
  | nil => cases cl <;> rfl
  | cons f rest ih =>
    simp only [runListener]
    cases h : (processFrame did st f).2 with
    | none =>
      simp only [h]
      rw [ih]
      exact processFrame_external_conns did st f
    | some e =>
      simp only [h]
      exact processFrame_external_conns did st f

/-- An online device entry, used by the `C7` counterexample. -/
def devOnline : MDevice := { status := DeviceStatus.online, last_location := none }

/-- `C7` counterexample: a device registered as online whose external stream
closes with an error. The listener does mark the device offline, but the
external connection registration for "d1" is still present afterwards — the
listener removes nothing from the registry, refuting the claim. -/
def stC7 : RelayState :=
  { devices := [("d1", devOnline)], offenders := [], pois := [], alerts := []
    broadcasts := [], external_conns := ["d1"] }

theorem C7_counterexample :
    (runListener "d1" stC7 [] Closure.errorClosed).devices =
      [("d1", { status := DeviceStatus.offline, last_location := none })] ∧
    (runListener "d1" stC7 [] Closure.errorClosed).external_conns = ["d1"] := by
  constructor
  · show (setOffline "d1" stC7).devices = _
    simp [setOffline, stC7, devOnline]
  · rfl

/-- `C7` amended: on an error closure the listener runs the `ConnectionClosed`
handler — device marked offline — and terminates; on a graceful closure it
terminates with the state unchanged (no offline transition); in every run,
whatever the stream contents and closure kind, the external connection
registration is left exactly as it was (deregistration happens only through
`ConnMgr.disconnect`, on the dashboard-session path). -/
theorem C7_closure_behavior (did : String) (st : RelayState) :
    runListener did st [] Closure.errorClosed = setOffline did st ∧
    runListener did st [] Closure.graceful = st ∧
    (∀ (frames : List Frame) (cl : Closure),
      (runListener did st frames cl).external_conns = st.external_conns) :=
  ⟨rfl, rfl, fun frames cl => runListener_external_conns did st frames cl⟩

/- ==================== C9: several offenders on one device ==================== -/

/-- First of two offenders sharing device "d1". -/
def offC9a : Offender :=
  { id := "oA", name := "A", device_id := some "d1"
    current_location := none, geofence_zones := [] }

/-- Second of two offenders sharing device "d1". -/
def offC9b : Offender :=
  { id := "oB", name := "B", device_id := some "d1"
    current_location := none, geofence_zones := [] }

/-- State with two offenders assigned to the same device, violating the
upstream one-device-per-subject invariant. -/
def stC9 : RelayState :=
  { devices := [], offenders := [offC9a, offC9b], pois := [], alerts := []
    broadcasts := [], external_conns := [] }

/-- `C9` counterexample: with two offender records matching the frame's
device id, one location frame updates the `current_location` of BOTH — not of
the first match only, refuting "first match wins". -/
theorem C9_counterexample :
    ((processFrame "d1" stC9 (Frame.location (some goodLoc) none)).1.offenders.map
      (fun o => o.current_location)) = [some goodLoc, some goodLoc] := rfl

/-- `C9` amended: when the one-device-per-subject invariant is violated
upstream, the offender loop applies the location update to EVERY matching
subject (all matches win, in iteration order), leaves non-matching subjects
untouched, and — given well-formed coordinates — completes without raising. -/
theorem C9_all_matches_updated (pois : List POI) (did : String) (loc : LocationDict)
    (la lo' : ℝ) (offs : List Offender)
    (hlat : loc.lat = some la) (hlon : loc.lon = some lo')
    (hz : ∀ o ∈ offs, o.device_id = some did →
      ∀ z ∈ o.geofence_zones, z.lat ≠ none ∧ z.lon ≠ none) :
    (processOffenders pois did loc offs).1 =
      offs.map (fun o =>
        if o.device_id = some did then { o with current_location := some loc } else o) ∧
    (processOffenders pois did loc offs).2.2 = none := by
  induction offs with
  | nil => exact ⟨rfl, rfl⟩
  | cons o rest ih =>
    have ih' := ih (fun w hw => hz w (by simp [hw]))
    by_cases hdev : o.device_id = some did
    · have hrp := check_poi_eq pois { o with current_location := some loc } loc la lo'
        hlat hlon
      have hrg := check_geo_eq { o with current_location := some loc } loc la lo'
        o.geofence_zones hlat hlon
        (fun z hzz => hz o (by simp) hdev z hzz)
      rw [hdev] at hrp hrg
      constructor
      · simp [processOffenders, hdev, hrp, check_geofence_violations, hrg, ih'.1]
      · simp [processOffenders, hdev, hrp, check_geofence_violations, hrg, ih'.2]
    · constructor
      · simp [processOffenders, hdev, ih'.1]
      · simp [processOffenders, hdev, ih'.2]

/-- Witness for `C9` (amended): at the concrete two-offender state, both
records come back updated and no exception escapes. -/
theorem C9_all_matches_updated_witness :
    goodLoc.lat = some 1 ∧
    (processOffenders [] "d1" goodLoc [offC9a, offC9b]).1 =
      [{ offC9a with current_location := some goodLoc },
       { offC9b with current_location := some goodLoc }] ∧
    (processOffenders [] "d1" goodLoc [offC9a, offC9b]).2.2 = none := by
  have h := C9_all_matches_updated [] "d1" goodLoc 1 2 [offC9a, offC9b]
    rfl rfl (by simp [offC9a, offC9b])
  refine ⟨rfl, ?_, h.2⟩
  rw [h.1]
  simp [offC9a, offC9b]
